import Mathlib

/-!
Verification of the GadgetFix-SEO-Audit notification scripts.

Shallow embedding of `scripts/send-notifications.py` and
`scripts/quick-check.py`.  Python dictionaries loaded from the JSON
results file are modelled as a structure of optional fields (a key that
is absent from the dictionary is `none`); the wall clock, the file
system and the outbound HTTP posts are modelled as explicit inputs.
-/

/-- Substring containment: Python `pat in s` on strings. -/
def strContains (s pat : String) : Bool :=
  decide (List.IsInfix pat.data s.data)

/-- Python `str.lower()`: lower-case every character (modelled with the
ASCII case mapping of `Char.toLower`). -/
def lowerString (s : String) : String :=
  ⟨s.data.map Char.toLower⟩

/-- The audit results record read from the JSON results file
(`AuditResult` in the design).  Each field models one dictionary key the
notifier reads; `none` models an absent key.  Keys the notifier only
echoes into the e-mail body (content_size_kb, internal_links_count,
total_images, images_without_alt) are not needed by any claim and are
omitted. -/
structure AuditResults where
  error : Option String := none
  score : Option Int := none
  grade : Option String := none
  critical_issues : Option Int := none
  response_time_ms : Option Int := none
  issues : Option (List String) := none
  recommendations : Option (List String) := none
deriving DecidableEq

/-- Model of `SEONotificationSystem.load_results` (send-notifications.py lines
53-62).  The file-system interaction is modelled by the argument:
`none` means no results-file path was given or the path does not exist;
`some (.error e)` means opening or JSON-parsing the file raised an
exception with message `e`; `some (.ok r)` means the file parsed to the
record `r`. -/
def load_results (results_file : Option (Except String AuditResults)) : AuditResults :=
  match results_file with
  | none => { error := some "No results file found" }
  | some (Except.error e) => { error := some ("Could not load results: " ++ e) }
  | some (Except.ok r) => r

/-- Model of `SEONotificationSystem.determine_urgency` (lines 64-80).
`results.get("score", 100)` is `results.score.getD 100` and
`results.get("critical_issues", 0)` is `results.critical_issues.getD 0`;
`"error" in results` is `results.error.isSome`. -/
def determine_urgency (results : AuditResults) (status : String) : String :=
  if status = "failure" then "CRITICAL"
  else if results.error.isSome then "CRITICAL"
  else
    let score := results.score.getD 100
    let critical_issues := results.critical_issues.getD 0
    if score < 50 ∨ critical_issues > 3 then "HIGH"
    else if score < 70 ∨ critical_issues > 0 then "MEDIUM"
    else "LOW"

/-- The e-mail subject computed inside
`SEONotificationSystem.send_email_notification` (lines 136-145).  In the
final branch the score is `results.get("score", 0)`. -/
def email_subject (audit_type : String) (results : AuditResults)
    (urgency : String) (url : String) : String :=
  if urgency = "CRITICAL" then "🚨 CRITICAL: SEO Issues Detected - " ++ url
  else if urgency = "HIGH" then "⚠️ HIGH: SEO Problems Found - " ++ url
  else if audit_type = "deep" then "📊 Weekly SEO Report - " ++ url
  else
    ("✅ SEO Audit Complete - Score: " ++ toString (results.score.getD 0) ++ "/100 - ")
      ++ url

/-- Model of `SEONotificationSystem.send_email_notification` (lines 132-157):
the function only prints the prepared subject and body and always
returns `True`. -/
def send_email_notification (audit_type : String) (results : AuditResults)
    (urgency : String) (url : String) : String × Bool :=
  (email_subject audit_type results urgency url, true)

/-- The console score line `f"🎯 SEO Score: {score}/100 ({grade})"` of
`send_console_notification` (lines 94-96), where
`score = results.get("score", 0)` and `grade = results.get("grade", "N/A")`. -/
def console_score_line (results : AuditResults) : String :=
  ("🎯 SEO Score: " ++ toString (results.score.getD 0) ++ "/100 (")
    ++ (results.grade.getD "N/A" ++ ")")

/-- The Slack colour map `color_map.get(urgency, "#0099ff")`
(lines 234-235). -/
def slack_color_map (urgency : String) : String :=
  if urgency = "CRITICAL" then "#ff0000"
  else if urgency = "HIGH" then "#ff9900"
  else if urgency = "MEDIUM" then "#ffcc00"
  else if urgency = "LOW" then "#00ff00"
  else "#0099ff"

/-- The Slack attachment title
`f"🎯 SEO Score: {score}/100 ({grade})"` (lines 237-244), with
`score = results.get("score", 0)` and `grade = results.get("grade", "N/A")`. -/
def slack_title (results : AuditResults) : String :=
  ("🎯 SEO Score: " ++ toString (results.score.getD 0) ++ "/100 (")
    ++ (results.grade.getD "N/A" ++ ")")

/-- The Discord colour map `color_map.get(urgency, 0x0099ff)`
(lines 276-277), an `0xRRGGBB` integer. -/
def discord_color_map (urgency : String) : Nat :=
  if urgency = "CRITICAL" then 0xff0000
  else if urgency = "HIGH" then 0xff9900
  else if urgency = "MEDIUM" then 0xffcc00
  else if urgency = "LOW" then 0x00ff00
  else 0x0099ff

/-- The Discord embed description
`f"**Website:** {url}\n**Score:** {score}/100 ({grade})"`
(lines 272-281). -/
def discord_description (results : AuditResults) (url : String) : String :=
  ("**Website:** " ++ url) ++
    (("\n**Score:** " ++ toString (results.score.getD 0) ++ "/100 (")
      ++ (results.grade.getD "N/A" ++ ")"))

/-- Parse a `"#rrggbb"` colour string to its `0xRRGGBB` integer value.
Used to compare the Slack hex strings with the Discord integers. -/
def hexDigitVal (c : Char) : Option Nat :=
  if '0' ≤ c ∧ c ≤ '9' then some (c.toNat - '0'.toNat)
  else if 'a' ≤ c ∧ c ≤ 'f' then some (c.toNat - 'a'.toNat + 10)
  else if 'A' ≤ c ∧ c ≤ 'F' then some (c.toNat - 'A'.toNat + 10)
  else none

/-- Parse a 7-character `"#rrggbb"` string as a base-16 number. -/
def parseHexColor (s : String) : Option Nat :=
  match s.data with
  | '#' :: rest =>
    if rest.length = 6 then
      rest.foldl
        (fun acc c =>
          match acc, hexDigitVal c with
          | some a, some d => some (a * 16 + d)
          | _, _ => none)
        (some 0)
    else none
  | _ => none

/-- The dictionary written to `github-issue-data.json` by
`SEONotificationSystem.create_github_issue` (lines 309-316). -/
structure GithubIssuePayload where
  audit_type : String
  status : String
  url : String
  results : AuditResults
  timestamp : String
deriving DecidableEq

/-- The keys of the dictionary passed to `json.dump` in
`create_github_issue`, in source order (lines 310-316). -/
def githubIssuePayloadKeys : List String :=
  ["audit_type", "status", "url", "results", "timestamp"]

/-- Observable side effects of one `send_notifications` run.  The only
network posts the notifier makes are the Slack and Discord webhook
posts; the GitHub issue step only writes a local file. -/
inductive Effect where
  | console : Effect
  | emailPrepared : String → Effect
  | slackPost : Effect
  | discordPost : Effect
  | githubIssueWrite : Effect
deriving DecidableEq

/-- Model of `SEONotificationSystem.create_github_issue` (lines 302-319): writes
the payload file and returns `True`; `now_iso` models
`datetime.now().isoformat()`.  Its only effect is the local file write:
it performs no HTTP call. -/
def create_github_issue (audit_type status url : String) (results : AuditResults)
    (now_iso : String) : GithubIssuePayload × Bool × List Effect :=
  ({ audit_type := audit_type, status := status, url := url,
     results := results, timestamp := now_iso },
   true, [Effect.githubIssueWrite])

/-- The environment-variable configuration read in `__init__`
(lines 9-14); only the two webhook URLs gate behaviour relevant to the
claims. -/
structure NotifierConfig where
  slack_webhook : String
  discord_webhook : String
deriving DecidableEq

/-- External-world inputs of one run: the outcome of each
`requests.post` (`.error e` models a raised exception with message `e`)
and the wall clock. -/
structure WebhookWorld where
  slack_post : Except String Unit
  discord_post : Except String Unit
  now_iso : String

/-- Model of `SEONotificationSystem.send_slack_notification` (lines 226-263):
returns `False` immediately when no webhook is configured; otherwise
posts the payload, catching any exception (returning `False`).  The
second component records whether the post was attempted. -/
def send_slack_notification (cfg : NotifierConfig) (w : WebhookWorld) :
    Bool × List Effect :=
  if cfg.slack_webhook = "" then (false, [])
  else
    match w.slack_post with
    | Except.ok _ => (true, [Effect.slackPost])
    | Except.error _ => (false, [Effect.slackPost])

/-- Model of `SEONotificationSystem.send_discord_notification` (lines 265-300),
with the same exception handling as the Slack channel. -/
def send_discord_notification (cfg : NotifierConfig) (w : WebhookWorld) :
    Bool × List Effect :=
  if cfg.discord_webhook = "" then (false, [])
  else
    match w.discord_post with
    | Except.ok _ => (true, [Effect.discordPost])
    | Except.error _ => (false, [Effect.discordPost])

/-- The result of one `send_notifications` run: the computed urgency,
the `notifications_sent` list, the trace of effects, and the returned
boolean `len(notifications_sent) > 0`. -/
structure NotifyRun where
  urgency : String
  sent : List String
  effects : List Effect
  ok : Bool
deriving DecidableEq

/-- Model of `SEONotificationSystem.send_notifications` (lines 16-51).  The
Python guard `if self.slack_webhook and self.send_slack_notification(...)`
short-circuits; calling the model unconditionally is equivalent because
the callee re-checks the webhook and produces no effect when it is
empty.  `create_github_issue` is only reached when
`urgency == "CRITICAL"` (line 47, short-circuit of `and`). -/
def send_notifications (cfg : NotifierConfig) (w : WebhookWorld)
    (audit_type status url : String)
    (results_file : Option (Except String AuditResults)) : NotifyRun :=
  let results := load_results results_file
  let urgency := determine_urgency results status
  let sent1 : List String := ["Console"]
  let eff1 : List Effect := [Effect.console]
  let email := send_email_notification audit_type results urgency url
  let sent2 := if email.2 then sent1 ++ ["Email"] else sent1
  let eff2 := eff1 ++ [Effect.emailPrepared email.1]
  let slack := send_slack_notification cfg w
  let sent3 := if slack.1 then sent2 ++ ["Slack"] else sent2
  let eff3 := eff2 ++ slack.2
  let discord := send_discord_notification cfg w
  let sent4 := if discord.1 then sent3 ++ ["Discord"] else sent3
  let eff4 := eff3 ++ discord.2
  let gh :=
    if urgency = "CRITICAL" then
      (create_github_issue audit_type status url results w.now_iso).2
    else (false, [])
  let sent5 := if gh.1 then sent4 ++ ["GitHub Issue"] else sent4
  let eff5 := eff4 ++ gh.2
  { urgency := urgency, sent := sent5, effects := eff5,
    ok := decide (sent5.length > 0) }

/-- Model of `main` (lines 331-348): `sys.exit(0 if success else 1)`. -/
def main_exit_code (cfg : NotifierConfig) (w : WebhookWorld)
    (audit_type status url : String)
    (results_file : Option (Except String AuditResults)) : Nat :=
  if (send_notifications cfg w audit_type status url results_file).ok then 0 else 1

/-- An HTTP response as observed by `basic_seo_check` in
quick-check.py: status code, decoded body text, elapsed seconds and raw
content length are carried through unchanged (the elapsed float is
modelled opaquely as an integer field since no logic inspects it). -/
structure HttpResponse where
  status_code : Nat
  text : String
  elapsed_total_seconds : Int
  content_length : Nat
deriving DecidableEq

/-- The report dictionary built by `basic_seo_check`
(quick-check.py lines 16-24); the wall-clock timestamp key is omitted. -/
structure QuickReport where
  url : String
  status_code : Nat
  response_time : Int
  content_length : Nat
  has_title : Bool
  has_meta_description : Bool
deriving DecidableEq

/-- Model of `basic_seo_check` (quick-check.py lines 7-24), success path: the
GET returned `resp`.  `"<title>" in response.text.lower()` and
`"name=\x22description\x22" in response.text.lower()` are the two
substring checks. -/
def basic_seo_check (url : String) (resp : HttpResponse) : QuickReport :=
  { url := url
    status_code := resp.status_code
    response_time := resp.elapsed_total_seconds
    content_length := resp.content_length
    has_title := strContains (lowerString resp.text) "<title>"
    has_meta_description := strContains (lowerString resp.text) "name=\"description\"" }

/-- The scenario-C results record `\x7bscore: 85, issues: [],
recommendations: []\x7d`. -/
def resultsScore85 : AuditResults :=
  { score := some 85, issues := some [], recommendations := some [] }

section Helpers

/-- Appending strings appends their character data. -/
theorem string_data_append (s t : String) : (s ++ t).data = s.data ++ t.data := by
  cases s
  cases t
  rfl

/-- A substring of `s` is a substring of `s ++ t`. -/
theorem strContains_append_left (s t pat : String)
    (h : strContains s pat = true) : strContains (s ++ t) pat = true := by
  have h' : List.IsInfix pat.data s.data := of_decide_eq_true h
  apply decide_eq_true
  rw [string_data_append]
  obtain ⟨u, v, huv⟩ := h'
  exact ⟨u, v ++ t.data, by rw [← huv]; simp [List.append_assoc]⟩

/-- A substring of `t` is a substring of `s ++ t`. -/
theorem strContains_append_right (s t pat : String)
    (h : strContains t pat = true) : strContains (s ++ t) pat = true := by
  have h' : List.IsInfix pat.data t.data := of_decide_eq_true h
  apply decide_eq_true
  rw [string_data_append]
  obtain ⟨u, v, huv⟩ := h'
  exact ⟨s.data ++ u, v, by rw [← huv]; simp [List.append_assoc]⟩

end Helpers

/-- C1: `determine_urgency` applies the documented rules in order,
first match wins: status failure gives CRITICAL; else an error key gives
CRITICAL; else score < 50 or criticalIssueCount > 3 gives HIGH; else
score < 70 or criticalIssueCount > 0 gives MEDIUM; else LOW — with a
missing score defaulting to 100 and a missing critical-issue count
defaulting to 0. -/
theorem determine_urgency_policy (r : AuditResults) (status : String) :
    (status = "failure" → determine_urgency r status = "CRITICAL")
    ∧ (status ≠ "failure" → r.error.isSome →
        determine_urgency r status = "CRITICAL")
    ∧ (status ≠ "failure" → r.error = none →
        (r.score.getD 100 < 50 ∨ r.critical_issues.getD 0 > 3) →
        determine_urgency r status = "HIGH")
    ∧ (status ≠ "failure" → r.error = none →
        ¬(r.score.getD 100 < 50 ∨ r.critical_issues.getD 0 > 3) →
        (r.score.getD 100 < 70 ∨ r.critical_issues.getD 0 > 0) →
        determine_urgency r status = "MEDIUM")
    ∧ (status ≠ "failure" → r.error = none →
        ¬(r.score.getD 100 < 50 ∨ r.critical_issues.getD 0 > 3) →
        ¬(r.score.getD 100 < 70 ∨ r.critical_issues.getD 0 > 0) →
        determine_urgency r status = "LOW") := by
  unfold determine_urgency
  refine ⟨fun h => by simp [h], fun h he => by simp [h, he], ?_, ?_, ?_⟩
  · intro h he hh
    simp [h, he, hh]
  · intro h he hh hm
    simp [h, he, hh, hm]
  · intro h he hh hm
    simp [h, he, hh, hm]

/-- Witness for C1 at a concrete record: score 60, no critical issues,
status success lands in the MEDIUM bucket. -/
theorem determine_urgency_policy_witness :
    determine_urgency { score := some 60 } "success" = "MEDIUM" := by
  have h := determine_urgency_policy { score := some 60 } "success"
  exact h.2.2.2.1 (by decide) (by rfl) (by decide) (by decide)

/-- C2 counterexample: the record with score 40 and one critical issue
satisfies the claimed premise (0 < criticalIssues ≤ 3, status success)
but `determine_urgency` returns HIGH, not MEDIUM, because the
score < 50 disjunct of the HIGH rule fires first. -/
theorem medium_band_counterexample :
    ((0:Int) < 1 ∧ (1:Int) ≤ 3)
    ∧ determine_urgency { score := some 40, critical_issues := some 1 } "success"
        = "HIGH"
    ∧ determine_urgency { score := some 40, critical_issues := some 1 } "success"
        ≠ "MEDIUM" := by
  decide

/-- C2 amended: for a success run whose record has no error key, a
score of at least 50, at most 3 critical issues, and either score ≤ 69
or a positive critical-issue count, `determine_urgency` returns
MEDIUM. -/
theorem medium_band (r : AuditResults) (status : String)
    (hst : status = "success") (he : r.error = none)
    (h1 : 50 ≤ r.score.getD 100) (h2 : r.critical_issues.getD 0 ≤ 3)
    (h3 : r.score.getD 100 ≤ 69 ∨ 0 < r.critical_issues.getD 0) :
    determine_urgency r status = "MEDIUM" := by
  unfold determine_urgency
  have hs : ¬(r.score.getD 100 < 50 ∨ r.critical_issues.getD 0 > 3) := by
    push_neg
    exact ⟨h1, h2⟩
  have hm : r.score.getD 100 < 70 ∨ r.critical_issues.getD 0 > 0 := by
    rcases h3 with h | h
    · exact Or.inl (by omega)
    · exact Or.inr h
  simp [hst, he, hs, hm]

/-- Witness for the amended C2 at score 55, no critical issues. -/
theorem medium_band_witness :
    determine_urgency { score := some 55 } "success" = "MEDIUM" :=
  medium_band { score := some 55 } "success" rfl rfl (by decide) (by decide)
    (Or.inl (by decide))

/-- C3: a missing results file and an unparseable results file both
yield a record with an error key, and any record with an error key is
classified CRITICAL whatever the status argument is. -/
theorem load_results_error_critical (e : String) (r : AuditResults)
    (status : String) (hr : r.error.isSome) :
    (load_results none).error.isSome
    ∧ (load_results (some (Except.error e))).error.isSome
    ∧ determine_urgency r status = "CRITICAL" := by
  refine ⟨rfl, rfl, ?_⟩
  unfold determine_urgency
  by_cases hst : status = "failure" <;> simp [hst, hr]

/-- Witness for C3: the synthetic error record is CRITICAL even for a
success status. -/
theorem load_results_error_critical_witness :
    determine_urgency { error := some "No results file found" } "success"
      = "CRITICAL" :=
  (load_results_error_critical "boom" { error := some "No results file found" }
    "success" (by decide)).2.2

/-- C8: for each urgency level, the Slack attachment colour is the
documented hex string, the Discord embed colour is the documented
0xRRGGBB integer, and parsing the Slack hex string yields exactly the
Discord integer for that level. -/
theorem slack_discord_colors_agree :
    (slack_color_map "CRITICAL" = "#ff0000"
      ∧ discord_color_map "CRITICAL" = 0xff0000
      ∧ parseHexColor (slack_color_map "CRITICAL")
          = some (discord_color_map "CRITICAL"))
    ∧ (slack_color_map "HIGH" = "#ff9900"
      ∧ discord_color_map "HIGH" = 0xff9900
      ∧ parseHexColor (slack_color_map "HIGH")
          = some (discord_color_map "HIGH"))
    ∧ (slack_color_map "MEDIUM" = "#ffcc00"
      ∧ discord_color_map "MEDIUM" = 0xffcc00
      ∧ parseHexColor (slack_color_map "MEDIUM")
          = some (discord_color_map "MEDIUM"))
    ∧ (slack_color_map "LOW" = "#00ff00"
      ∧ discord_color_map "LOW" = 0x00ff00
      ∧ parseHexColor (slack_color_map "LOW")
          = some (discord_color_map "LOW")) := by
  decide

/-- C4 counterexample: for the scenario-C record (score 85, success,
urgency LOW) a deep audit type produces the subject
"📊 Weekly SEO Report - ..." which is not the neutral audit-complete
phrasing and does not include the score. -/
theorem email_subject_counterexample :
    determine_urgency resultsScore85 "success" = "LOW"
    ∧ email_subject "deep" resultsScore85 "LOW" "https://example.com"
        = "📊 Weekly SEO Report - https://example.com"
    ∧ strContains
        (email_subject "deep" resultsScore85 "LOW" "https://example.com")
        "Score: 85/100" = false
    ∧ strContains
        (email_subject "deep" resultsScore85 "LOW" "https://example.com")
        "SEO Audit Complete" = false := by
  decide

/-- C4 amended: CRITICAL and HIGH urgencies get the alarmed subjects;
otherwise a deep audit gets the weekly-report subject (with no score),
and every other audit type gets the neutral audit-complete subject
including the score; in particular for the scenario-C record with a
non-deep audit type the subject contains "Score: 85/100". -/
theorem email_subject_by_urgency (audit_type : String) (r : AuditResults)
    (u url status : String) :
    (u = "CRITICAL" →
      email_subject audit_type r u url
        = "🚨 CRITICAL: SEO Issues Detected - " ++ url)
    ∧ (u = "HIGH" →
      email_subject audit_type r u url
        = "⚠️ HIGH: SEO Problems Found - " ++ url)
    ∧ (u ≠ "CRITICAL" → u ≠ "HIGH" → audit_type = "deep" →
      email_subject audit_type r u url = "📊 Weekly SEO Report - " ++ url)
    ∧ (u ≠ "CRITICAL" → u ≠ "HIGH" → audit_type ≠ "deep" →
      email_subject audit_type r u url
        = ("✅ SEO Audit Complete - Score: " ++ toString (r.score.getD 0)
            ++ "/100 - ") ++ url)
    ∧ (r.score = some 85 → r.error = none → r.critical_issues.getD 0 = 0 →
      status = "success" → audit_type ≠ "deep" →
      determine_urgency r status = "LOW"
      ∧ strContains (email_subject audit_type r (determine_urgency r status) url)
          "Score: 85/100" = true) := by
  refine ⟨?_, ?_, ?_, ?_, ?_⟩
  · intro h
    simp [email_subject, h]
  · intro h
    simp [email_subject, h]
  · intro h1 h2 h3
    simp [email_subject, h1, h2, h3]
  · intro h1 h2 h3
    simp [email_subject, h1, h2, h3]
  · intro hs he hc hst hat
    have hu : determine_urgency r status = "LOW" := by
      simp [determine_urgency, hst, he, hs, hc]
    refine ⟨hu, ?_⟩
    rw [hu]
    have hsubj : email_subject audit_type r "LOW" url
        = ("✅ SEO Audit Complete - Score: " ++ toString (r.score.getD 0)
            ++ "/100 - ") ++ url := by
      simp [email_subject, hat]
    rw [hsubj, hs]
    exact strContains_append_left _ _ _ (by decide)

/-- Witness for C4 at concrete inputs: the scenario-C record with a
quick audit yields the audit-complete subject with the score, while a
CRITICAL urgency yields the alarmed subject. -/
theorem email_subject_by_urgency_witness :
    email_subject "quick" resultsScore85 "CRITICAL" "https://example.com"
      = "🚨 CRITICAL: SEO Issues Detected - " ++ "https://example.com"
    ∧ determine_urgency resultsScore85 "success" = "LOW"
    ∧ strContains
        (email_subject "quick" resultsScore85
          (determine_urgency resultsScore85 "success") "https://example.com")
        "Score: 85/100" = true := by
  have h := email_subject_by_urgency "quick" resultsScore85 "CRITICAL"
    "https://example.com" "success"
  have h2 := email_subject_by_urgency "quick" resultsScore85 "LOW"
    "https://example.com" "success"
  exact ⟨h.1 rfl,
    (h2.2.2.2.2 (by decide) (by decide) (by decide) rfl (by decide)).1,
    (h2.2.2.2.2 (by decide) (by decide) (by decide) rfl (by decide)).2⟩

/-- C5: in `send_notifications` the GitHub-issue step runs exactly when
the computed urgency is CRITICAL; when it runs it writes the payload
record with exactly the keys audit_type, status, url, results,
timestamp, and its effect trace is the single local file write — no
HTTP call. -/
theorem github_issue_gating (cfg : NotifierConfig) (w : WebhookWorld)
    (audit_type status url : String)
    (rf : Option (Except String AuditResults)) :
    (Effect.githubIssueWrite
        ∈ (send_notifications cfg w audit_type status url rf).effects
      ↔ determine_urgency (load_results rf) status = "CRITICAL")
    ∧ ("GitHub Issue" ∈ (send_notifications cfg w audit_type status url rf).sent
      ↔ determine_urgency (load_results rf) status = "CRITICAL")
    ∧ create_github_issue audit_type status url (load_results rf) w.now_iso
        = ({ audit_type := audit_type, status := status, url := url,
             results := load_results rf, timestamp := w.now_iso },
           true, [Effect.githubIssueWrite])
    ∧ githubIssuePayloadKeys
        = ["audit_type", "status", "url", "results", "timestamp"] := by
  obtain ⟨sp, dp, niso⟩ := w
  refine ⟨?_, ?_, rfl, rfl⟩ <;>
  · by_cases hsw : cfg.slack_webhook = "" <;>
      by_cases hdw : cfg.discord_webhook = "" <;>
      cases sp <;> cases dp <;>
      by_cases hc : determine_urgency (load_results rf) status = "CRITICAL" <;>
      simp [send_notifications, send_slack_notification,
        send_discord_notification, send_email_notification,
        create_github_issue, hsw, hdw, hc]

/-- C6: `send_notifications` returns true exactly when the sent-channel
list is non-empty, and `main` maps that boolean to exit code 0, else
exit code 1. -/
theorem exit_code_iff_sent (cfg : NotifierConfig) (w : WebhookWorld)
    (audit_type status url : String)
    (rf : Option (Except String AuditResults)) :
    ((send_notifications cfg w audit_type status url rf).ok = true
      ↔ (send_notifications cfg w audit_type status url rf).sent ≠ [])
    ∧ (main_exit_code cfg w audit_type status url rf = 0
      ↔ (send_notifications cfg w audit_type status url rf).sent ≠ [])
    ∧ (main_exit_code cfg w audit_type status url rf = 1
      ↔ (send_notifications cfg w audit_type status url rf).sent = []) := by
  have hok : (send_notifications cfg w audit_type status url rf).ok
      = decide ((send_notifications cfg w audit_type status url rf).sent.length > 0) :=
    rfl
  have h1 : (send_notifications cfg w audit_type status url rf).ok = true
      ↔ (send_notifications cfg w audit_type status url rf).sent ≠ [] := by
    rw [hok, decide_eq_true_iff]
    exact List.length_pos
  have hm : main_exit_code cfg w audit_type status url rf
      = if (send_notifications cfg w audit_type status url rf).ok then 0 else 1 :=
    rfl
  refine ⟨h1, ?_, ?_⟩ <;> rw [hm] <;>
    rcases hb : (send_notifications cfg w audit_type status url rf).ok <;>
    simp [hb] at h1 ⊢ <;> simp [h1]

/-- C7: when the Slack post raises and the Discord post raises, each
failure is caught inside its channel function (which returns false
instead of propagating), the failed channels are excluded from the
sent-channel summary, and the posts are still attempted whenever the
webhooks are configured while the GitHub-issue step still runs exactly
on CRITICAL urgency — no channel failure aborts the remaining
channels. -/
theorem channel_failure_isolated (cfg : NotifierConfig) (w : WebhookWorld)
    (audit_type status url : String)
    (rf : Option (Except String AuditResults)) (es ed : String)
    (hs : w.slack_post = Except.error es)
    (hd : w.discord_post = Except.error ed) :
    send_slack_notification cfg w
      = (false, if cfg.slack_webhook = "" then [] else [Effect.slackPost])
    ∧ send_discord_notification cfg w
      = (false, if cfg.discord_webhook = "" then [] else [Effect.discordPost])
    ∧ "Slack" ∉ (send_notifications cfg w audit_type status url rf).sent
    ∧ "Discord" ∉ (send_notifications cfg w audit_type status url rf).sent
    ∧ (Effect.slackPost
        ∈ (send_notifications cfg w audit_type status url rf).effects
      ↔ cfg.slack_webhook ≠ "")
    ∧ (Effect.discordPost
        ∈ (send_notifications cfg w audit_type status url rf).effects
      ↔ cfg.discord_webhook ≠ "")
    ∧ (Effect.githubIssueWrite
        ∈ (send_notifications cfg w audit_type status url rf).effects
      ↔ determine_urgency (load_results rf) status = "CRITICAL") := by
  obtain ⟨sp, dp, niso⟩ := w
  simp only at hs hd
  subst hs
  subst hd
  refine ⟨?_, ?_, ?_, ?_, ?_, ?_, ?_⟩ <;>
  · by_cases hsw : cfg.slack_webhook = "" <;>
      by_cases hdw : cfg.discord_webhook = "" <;>
      by_cases hc : determine_urgency (load_results rf) status = "CRITICAL" <;>
      simp [send_notifications, send_slack_notification,
        send_discord_notification, send_email_notification,
        create_github_issue, hsw, hdw, hc]

/-- Witness for C7: with both webhooks configured and both posts
raising, neither Slack nor Discord appears in the summary, yet both
posts were attempted and the GitHub-issue step still ran (the missing
results file makes the run CRITICAL). -/
theorem channel_failure_isolated_witness :
    "Slack" ∉ (send_notifications ⟨"sw", "dw"⟩
        ⟨Except.error "boom", Except.error "down", "t"⟩
        "quick" "success" "https://example.com" none).sent
    ∧ "Discord" ∉ (send_notifications ⟨"sw", "dw"⟩
        ⟨Except.error "boom", Except.error "down", "t"⟩
        "quick" "success" "https://example.com" none).sent
    ∧ Effect.slackPost ∈ (send_notifications ⟨"sw", "dw"⟩
        ⟨Except.error "boom", Except.error "down", "t"⟩
        "quick" "success" "https://example.com" none).effects
    ∧ Effect.discordPost ∈ (send_notifications ⟨"sw", "dw"⟩
        ⟨Except.error "boom", Except.error "down", "t"⟩
        "quick" "success" "https://example.com" none).effects
    ∧ Effect.githubIssueWrite ∈ (send_notifications ⟨"sw", "dw"⟩
        ⟨Except.error "boom", Except.error "down", "t"⟩
        "quick" "success" "https://example.com" none).effects := by
  have h := channel_failure_isolated ⟨"sw", "dw"⟩
    ⟨Except.error "boom", Except.error "down", "t"⟩
    "quick" "success" "https://example.com" none "boom" "down" rfl rfl
  exact ⟨h.2.2.1, h.2.2.2.1, h.2.2.2.2.1.mpr (by decide),
    h.2.2.2.2.2.1.mpr (by decide), h.2.2.2.2.2.2.mpr (by decide)⟩

/-- C9: for a 200 response whose lower-cased body contains "<title>"
but no meta-description marker, the quick-check report records
status_code 200, has_title true and has_meta_description false. -/
theorem basic_seo_check_spec (url : String) (resp : HttpResponse)
    (h200 : resp.status_code = 200)
    (ht : strContains (lowerString resp.text) "<title>" = true)
    (hm : strContains (lowerString resp.text) "name=\"description\"" = false) :
    (basic_seo_check url resp).status_code = 200
    ∧ (basic_seo_check url resp).has_title = true
    ∧ (basic_seo_check url resp).has_meta_description = false := by
  simp [basic_seo_check, h200, ht, hm]

/-- Witness for C9 on a concrete response body with an upper-case TITLE
tag and no meta description. -/
theorem basic_seo_check_spec_witness :
    (basic_seo_check "https://example.com"
        ⟨200, "<html><TITLE>Demo</TITLE></html>", 1, 120⟩).status_code = 200
    ∧ (basic_seo_check "https://example.com"
        ⟨200, "<html><TITLE>Demo</TITLE></html>", 1, 120⟩).has_title = true
    ∧ (basic_seo_check "https://example.com"
        ⟨200, "<html><TITLE>Demo</TITLE></html>", 1, 120⟩).has_meta_description
        = false :=
  basic_seo_check_spec "https://example.com"
    ⟨200, "<html><TITLE>Demo</TITLE></html>", 1, 120⟩
    rfl (by decide) (by decide)

/-- C10: a success-status record with no score key, no error key and no
positive critical-issue count is classified LOW (the classifier
defaults the missing score to 100), while the console line, the e-mail
subject (for non-deep audits), the Slack title and the Discord
description all render the same missing score as 0, displaying
"0/100". -/
theorem missing_score_discrepancy (r : AuditResults) (audit_type url : String)
    (hs : r.score = none) (he : r.error = none)
    (hc : r.critical_issues.getD 0 ≤ 0) (hat : audit_type ≠ "deep") :
    determine_urgency r "success" = "LOW"
    ∧ email_subject audit_type r "LOW" url
        = "✅ SEO Audit Complete - Score: 0/100 - " ++ url
    ∧ strContains (email_subject audit_type r "LOW" url) "Score: 0/100" = true
    ∧ strContains (console_score_line r) "0/100" = true
    ∧ strContains (slack_title r) "0/100" = true
    ∧ strContains (discord_description r url) "0/100" = true := by
  have hcrit3 : ¬(r.critical_issues.getD 0 > 3) := by omega
  have hcrit0 : ¬(r.critical_issues.getD 0 > 0) := by omega
  have h1 : determine_urgency r "success" = "LOW" := by
    simp [determine_urgency, he, hs, hcrit3, hcrit0]
  have h2 : email_subject audit_type r "LOW" url
      = "✅ SEO Audit Complete - Score: 0/100 - " ++ url := by
    unfold email_subject
    rw [if_neg (by decide), if_neg (by decide), if_neg hat, hs]
    rfl
  refine ⟨h1, h2, ?_, ?_, ?_, ?_⟩
  · rw [h2]
    exact strContains_append_left _ _ _ (by decide)
  · unfold console_score_line
    rw [hs]
    exact strContains_append_left _ _ _ (by decide)
  · unfold slack_title
    rw [hs]
    exact strContains_append_left _ _ _ (by decide)
  · unfold discord_description
    rw [hs]
    exact strContains_append_right _ _ _ (strContains_append_left _ _ _ (by decide))

/-- Witness for C10 at the empty record (every key absent). -/
theorem missing_score_discrepancy_witness :
    determine_urgency {} "success" = "LOW"
    ∧ email_subject "quick" {} "LOW" "https://example.com"
        = "✅ SEO Audit Complete - Score: 0/100 - " ++ "https://example.com"
    ∧ strContains (slack_title {}) "0/100" = true
    ∧ strContains (discord_description {} "https://example.com") "0/100"
        = true := by
  have h := missing_score_discrepancy {} "quick" "https://example.com"
    rfl rfl (by decide) (by decide)
  exact ⟨h.1, h.2.1, h.2.2.2.2.1, h.2.2.2.2.2⟩

/-- Witness for C5: with no results file the urgency is CRITICAL even
on a success status, so the GitHub-issue step runs and its file write
appears in the trace. -/
theorem github_issue_gating_witness :
    Effect.githubIssueWrite ∈ (send_notifications ⟨"", ""⟩
        ⟨Except.ok (), Except.ok (), "t"⟩
        "quick" "success" "https://example.com" none).effects
    ∧ "GitHub Issue" ∈ (send_notifications ⟨"", ""⟩
        ⟨Except.ok (), Except.ok (), "t"⟩
        "quick" "success" "https://example.com" none).sent := by
  have h := github_issue_gating ⟨"", ""⟩ ⟨Except.ok (), Except.ok (), "t"⟩
    "quick" "success" "https://example.com" none
  exact ⟨h.1.mpr (by decide), h.2.1.mpr (by decide)⟩

/-- Witness for C6: a concrete run sends at least the console channel,
so the process exits 0. -/
theorem exit_code_iff_sent_witness :
    main_exit_code ⟨"", ""⟩ ⟨Except.ok (), Except.ok (), "t"⟩
      "quick" "success" "https://example.com" none = 0 := by
  have h := exit_code_iff_sent ⟨"", ""⟩ ⟨Except.ok (), Except.ok (), "t"⟩
    "quick" "success" "https://example.com" none
  exact h.2.1.mpr (by decide)
